import Mathlib

/-
Verification of the tinman session subsystem (src/tinman/serializers.py,
src/tinman/session/__init__.py, src/tinman/session/redis_adapter.py)
against its specification.

Modelling conventions:
* Python values stored in session dictionaries are modelled by the inductive
  type `Value`; Python `None` is `Value.none`; opaque objects (the application
  object, client handles) are `Value.obj tag`; the serializer instance stored
  on the adapter is `Value.serializer k`.
* Python dicts are association lists with unique keys; `assocSet` replaces in
  place (Python 3.7+ insertion-order update semantics) and `assocDelete`
  removes a binding.
* A raising Python call is an `Option.none` result; effects that happened
  before the raise are modelled explicitly where a claim depends on them.
* Serialized byte strings are modelled by `Blob`: `Blob.ok d` stands for bytes
  that the matching loads-function decodes to the dictionary `d`, `Blob.corrupt`
  for bytes that make it raise, `Blob.empty` for zero-length (falsy) bytes.
* Times (st_ctime, st_mtime, time.time()) are modelled in whole seconds.
-/

namespace Tinman

/-- Lookup in an association list modelling a Python dict. -/
def assocGet {α : Type} : List (String × α) → String → Option α
  | [], _ => Option.none
  | (k', v) :: rest, k => if k' = k then some v else assocGet rest k

/-- `d[k] = v` on a Python dict: replace in place or append. -/
def assocSet {α : Type} : List (String × α) → String → α → List (String × α)
  | [], k, v => [(k, v)]
  | (k', v') :: rest, k, v =>
      if k' = k then (k, v) :: rest else (k', v') :: assocSet rest k v

/-- `del d[k]` on a Python dict (the key is assumed unique). -/
def assocDelete {α : Type} : List (String × α) → String → List (String × α)
  | [], _ => []
  | (k', v') :: rest, k => if k' = k then rest else (k', v') :: assocDelete rest k

/-- The serializer implementations of src/tinman/serializers.py. -/
inductive SerializerKind where
  | pickle
  | json
  | msgpack
  deriving DecidableEq

/-- Python values held in session data/attribute dictionaries. -/
inductive Value where
  | none
  | str (s : String)
  | num (n : Int)
  | bool (b : Bool)
  | datetime (epoch : Int)
  | dict (entries : List (String × Value))
  | serializer (k : SerializerKind)
  | obj (tag : String)

/-- Python truthiness of a `Value` (used by `config.get('cleanup', True)`). -/
def truthy : Value → Bool
  | Value.none => false
  | Value.str s => s ≠ ""
  | Value.num n => n ≠ 0
  | Value.bool b => b
  | Value.datetime _ => true
  | Value.dict es => !es.isEmpty
  | Value.serializer _ => true
  | Value.obj _ => true

/-- The tagged structure `_serialize_datetime` writes for a datetime value.
Note `value` is the result of `strftime('%s')`: a decimal string, not a
number. -/
def datetimeTagged (epoch : Int) : Value :=
  Value.dict [("type", Value.str "datetime"), ("value", Value.str (toString epoch))]

/-- `Serializer._serialize_datetime`: every top-level datetime value is
replaced by its tagged structure.  In the source this mutates the dict that
was passed in; the adapter-level functions below thread that mutation. -/
def serializeDatetime (data : List (String × Value)) : List (String × Value) :=
  data.map fun kv =>
    match kv.2 with
    | Value.datetime e => (kv.1, datetimeTagged e)
    | _ => kv

/-- `datetime.datetime.fromtimestamp`: accepts a number (Python bools are
ints), raises TypeError on anything else — in particular on a string. -/
def fromtimestamp : Value → Option Value
  | Value.num n => some (Value.datetime n)
  | Value.bool b => some (Value.datetime (if b then 1 else 0))
  | _ => Option.none

/-- One key of `Serializer._deserialize_datetime`: a dict value whose
`type` entry equals the string `datetime` is replaced by
`fromtimestamp(value['value'])`; a missing `value` key is a KeyError. -/
def deserializeEntryValue : Value → Option Value
  | Value.dict es =>
      match assocGet es "type" with
      | some (Value.str "datetime") =>
          (match assocGet es "value" with
           | some v => fromtimestamp v
           | Option.none => Option.none)
      | _ => some (Value.dict es)
  | v => some v

/-- `Serializer._deserialize_datetime` over the whole dict. -/
def deserializeDatetime (data : List (String × Value)) :
    Option (List (String × Value)) :=
  data.mapM fun kv => (deserializeEntryValue kv.2).map fun v => (kv.1, v)

/-- Serialized bytes.  `Blob.ok d` are bytes that decode (by the matching
loads) to the dict `d`; `Blob.corrupt` are bytes on which loads raises;
`Blob.empty` are zero-length (falsy) bytes. -/
inductive Blob where
  | ok (data : List (String × Value))
  | corrupt
  | empty

/-- `serialize` of each serializer: apply `_serialize_datetime`, then dump.
All three implementations share this shape (the byte formats differ, which
`Blob` abstracts away). -/
def serializeBlob (_k : SerializerKind) (data : List (String × Value)) : Blob :=
  Blob.ok (serializeDatetime data)

/-- `deserialize` of each serializer.  `Pickle.deserialize` returns an empty
dict on falsy input (`if not data: return dict()`); JSON and msgpack have no
such guard, so loads raises on empty input.  All apply
`_deserialize_datetime` afterwards. -/
def deserializeBlob : SerializerKind → Blob → Option (List (String × Value))
  | SerializerKind.pickle, Blob.empty => some []
  | SerializerKind.pickle, Blob.corrupt => Option.none
  | SerializerKind.pickle, Blob.ok d => deserializeDatetime d
  | SerializerKind.json, Blob.empty => Option.none
  | SerializerKind.json, Blob.corrupt => Option.none
  | SerializerKind.json, Blob.ok d => deserializeDatetime d
  | SerializerKind.msgpack, Blob.empty => Option.none
  | SerializerKind.msgpack, Blob.corrupt => Option.none
  | SerializerKind.msgpack, Blob.ok d => deserializeDatetime d

/-- The instance state of `tinman.session.SessionAdapter`: the two dicts
installed directly in `self.__dict__` by `__init__`.  `attributes` is the
internal bookkeeping store (`_id`, `_application`, `_config`, `_duration`,
`_serializer`, ...), `data` is the user session data store. -/
structure SessionAdapter where
  attributes : List (String × Value)
  data : List (String × Value)

/-- Names defined on the adapter class itself (methods and the `id`
property).  Python invokes `__getattr__` only for names that normal lookup
does not find, so `SessionAdapter.getattr` below models reads of names
outside this list. -/
def SessionAdapter.classAttrs : List String :=
  ["attributes", "data", "as_dict", "clear", "delete", "get", "id", "items",
   "keys", "load", "save", "values"]

/-- `SessionAdapter.__setattr__`: assigning `_data` raises AttributeError;
an empty name raises IndexError at `key[0]`; names starting with `_` go to
the attributes store, everything else to the data store. -/
def SessionAdapter.setattr (s : SessionAdapter) (key : String) (value : Value) :
    Option SessionAdapter :=
  if key = "_data" then Option.none
  else if key = "" then Option.none
  else if key.front = '_' then
    some { s with attributes := assocSet s.attributes key value }
  else
    some { s with data := assocSet s.data key value }

/-- `SessionAdapter.__getattr__` (reached for names not on the class):
`_data` yields the data dict; an empty name raises IndexError; `_`-prefixed
names read the attributes store with default `None`; other names read the
data store with default `None`. -/
def SessionAdapter.getattr (s : SessionAdapter) (key : String) : Option Value :=
  if key = "_data" then some (Value.dict s.data)
  else if key = "" then Option.none
  else if key.front = '_' then some ((assocGet s.attributes key).getD Value.none)
  else some ((assocGet s.data key).getD Value.none)

/-- `SessionAdapter.__delattr__`: deleting `_data` resets the data store;
an empty name raises IndexError; deleting an absent `_`-prefixed attribute
is silently ignored; deleting an absent data key raises AttributeError. -/
def SessionAdapter.delattr (s : SessionAdapter) (key : String) :
    Option SessionAdapter :=
  if key = "_data" then some { s with data := [] }
  else if key = "" then Option.none
  else if key.front = '_' then
    if (assocGet s.attributes key).isSome then
      some { s with attributes := assocDelete s.attributes key }
    else some s
  else if (assocGet s.data key).isSome then
    some { s with data := assocDelete s.data key }
  else Option.none

/-- `SessionAdapter.__contains__`: membership in the data store. -/
def SessionAdapter.contains (s : SessionAdapter) (item : String) : Bool :=
  (assocGet s.data item).isSome

/-- `SessionAdapter.clear`: the body is `self._data = dict()`, which goes
through `__setattr__` — and `__setattr__` raises AttributeError for the
key `_data`. -/
def SessionAdapter.clear (s : SessionAdapter) : Option SessionAdapter :=
  SessionAdapter.setattr s "_data" (Value.dict [])

/-- The `id` property: `self.__dict__['attributes']['_id']` (KeyError if
absent), projected to the stored string. -/
def SessionAdapter.idStr (s : SessionAdapter) : Option String :=
  match assocGet s.attributes "_id" with
  | some (Value.str i) => some i
  | _ => Option.none

/-- The `_serializer` attribute set by `__init__`. -/
def SessionAdapter.serializerKind (s : SessionAdapter) : Option SerializerKind :=
  match assocGet s.attributes "_serializer" with
  | some (Value.serializer k) => some k
  | _ => Option.none

/-- The `_duration` attribute set by `__init__`. -/
def SessionAdapter.durationAttr (s : SessionAdapter) : Option Int :=
  match assocGet s.attributes "_duration" with
  | some (Value.num d) => some d
  | _ => Option.none

/-- `SessionAdapter.__init__`.  `session_id or self._create_id()` falls back
to a minted uuid4 string when `session_id` is `None` or falsy (empty);
the mint is modelled by the `freshId` argument.  Each subsequent
`self._x = ...` assignment goes through `__setattr__` into `attributes`;
`configuration or dict()` defaults to an empty dict. -/
def SessionAdapter.init (application : Value) (sessionId : Option String)
    (configuration : Option (List (String × Value))) (duration : Int)
    (serializer : Option SerializerKind) (freshId : String) : SessionAdapter :=
  let i := match sessionId with
    | some s => if s = "" then freshId else s
    | Option.none => freshId
  { attributes :=
      [("_id", Value.str i),
       ("_application", application),
       ("_config", Value.dict (configuration.getD [])),
       ("_duration", Value.num duration),
       ("_serializer", Value.serializer (serializer.getD SerializerKind.pickle))],
    data := [] }

/-- A file's metadata as seen by `os.stat` plus its stored bytes. -/
structure FileRecord where
  blob : Blob
  ctime : Int
  mtime : Int

/-- The session storage directory: stored files and the set of paths on
which `open`/`read` raises IOError (storage unavailable / read error). -/
structure FileSystem where
  files : List (String × FileRecord)
  failing : List String

/-- Outcome of `open(name, 'rb')` followed by `.read()`. -/
inductive ReadResult where
  | ioError
  | missing
  | found (b : Blob)

/-- Read a file: IOError on a failing path, missing when absent. -/
def FileSystem.read (fs : FileSystem) (name : String) : ReadResult :=
  if fs.failing.contains name then ReadResult.ioError
  else
    match assocGet fs.files name with
    | some r => ReadResult.found r.blob
    | Option.none => ReadResult.missing

/-- `open(name, 'wb')` + write: overwrite with fresh stat times. -/
def FileSystem.write (fs : FileSystem) (name : String) (b : Blob) (now : Int) :
    FileSystem :=
  { fs with files := assocSet fs.files name (FileRecord.mk b now now) }

/-- `FileSessionAdapter._cleanup`: keep a file unless
`max(st_ctime, st_mtime) + duration < time.time()` (strict). -/
def FileSessionAdapter.cleanup (fs : FileSystem) (duration now : Int) :
    FileSystem :=
  { fs with files := fs.files.filter fun kv =>
      if max kv.2.ctime kv.2.mtime + duration < now then false else true }

/-- `FileSessionAdapter.__init__`: the base constructor, then
`self._storage_dir = self._setup_storage_dir()` (the directory-resolution
result is passed in as `storageDir`; its path normalization and creation is
environment I/O outside the claims), then the stale sweep when
`self._config.get('cleanup', True)` is truthy. -/
def FileSessionAdapter.init (application : Value) (sessionId : Option String)
    (configuration : Option (List (String × Value))) (duration : Int)
    (serializer : Option SerializerKind) (freshId : String)
    (storageDir : String) (fs : FileSystem) (now : Int) :
    SessionAdapter × FileSystem :=
  let base := SessionAdapter.init application sessionId configuration duration
      serializer freshId
  let s := { base with
      attributes := assocSet base.attributes "_storage_dir" (Value.str storageDir) }
  let doClean := match assocGet (configuration.getD []) "cleanup" with
    | some v => truthy v
    | Option.none => true
  (s, if doClean then FileSessionAdapter.cleanup fs duration now else fs)

/-- `FileSessionAdapter._filename`: `path.join(self._storage_dir, self.id)`. -/
def FileSessionAdapter.filename (s : SessionAdapter) : Option String :=
  match assocGet s.attributes "_storage_dir" with
  | some (Value.str d) =>
      (match SessionAdapter.idStr s with
       | some i => some (d ++ "/" ++ i)
       | Option.none => Option.none)
  | _ => Option.none

/-- `FileSessionAdapter._load_session_data` + `SessionAdapter.load`:
read the whole file; IOError (missing file or read failure) is caught and
yields an empty dict; otherwise deserialize — an error there (not an
IOError) propagates.  `load` stores the result into the data dict. -/
def FileSessionAdapter.load (s : SessionAdapter) (fs : FileSystem) :
    Option SessionAdapter := do
  let fn ← FileSessionAdapter.filename s
  match FileSystem.read fs fn with
  | ReadResult.ioError => some { s with data := [] }
  | ReadResult.missing => some { s with data := [] }
  | ReadResult.found b => do
      let k ← SessionAdapter.serializerKind s
      let d ← deserializeBlob k b
      some { s with data := d }

/-- `FileSessionAdapter.save`: write `self._serialize()` to the session
file.  `serialize` applies `_serialize_datetime` to the session's own data
dict, mutating it in place, so the adapter's data is updated as well. -/
def FileSessionAdapter.save (s : SessionAdapter) (fs : FileSystem) (now : Int) :
    Option (SessionAdapter × FileSystem) := do
  let fn ← FileSessionAdapter.filename s
  let k ← SessionAdapter.serializerKind s
  some ({ s with data := serializeDatetime s.data },
        FileSystem.write fs fn (serializeBlob k s.data) now)

/-- `FileSessionAdapter.delete`: `self.clear()` first (which raises, see
`SessionAdapter.clear`), then unlink the file if it exists. -/
def FileSessionAdapter.delete (s : SessionAdapter) (fs : FileSystem) :
    Option (SessionAdapter × FileSystem) := do
  let s' ← SessionAdapter.clear s
  let fn ← FileSessionAdapter.filename s'
  some (s', if (assocGet fs.files fn).isSome then
              { fs with files := assocDelete fs.files fn }
            else fs)

/-- The key-value store behind `RedisSessionAdapter`: stored values with
their remaining TTL, and an availability flag — when the store is
unavailable every command raises (ConnectionError). -/
structure RedisStore where
  available : Bool
  entries : List (String × (Blob × Int))

/-- `RedisSessionAdapter._session_key`: `'sess:%s' % self.id`. -/
def SessionAdapter.sessionKey (s : SessionAdapter) : Option String :=
  match SessionAdapter.idStr s with
  | some i => some ("sess:" ++ i)
  | Option.none => Option.none

/-- `RedisSessionAdapter.__init__`: the base constructor followed by
`_setup_redis_client`, which stores the (possibly shared) client handle in
the `_redis` attribute. -/
def RedisSessionAdapter.init (application : Value) (sessionId : Option String)
    (configuration : Option (List (String × Value))) (duration : Int)
    (serializer : Option SerializerKind) (freshId : String) : SessionAdapter :=
  let base := SessionAdapter.init application sessionId configuration duration
      serializer freshId
  { base with
      attributes := assocSet base.attributes "_redis" (Value.obj "redis_client") }

/-- `RedisSessionAdapter._load_session_data` + `SessionAdapter.load`:
`data = self._redis.get(key)` (raises if the store is unavailable —
there is no try/except here), then `self._deserialize(data) if data else
dict()` — an absent key or falsy (empty) value yields an empty dict, and a
deserialization error propagates. -/
def RedisSessionAdapter.load (s : SessionAdapter) (st : RedisStore) :
    Option SessionAdapter := do
  let key ← SessionAdapter.sessionKey s
  if st.available then
    match assocGet st.entries key with
    | Option.none => some { s with data := [] }
    | some (Blob.empty, _) => some { s with data := [] }
    | some (b, _) => do
        let k ← SessionAdapter.serializerKind s
        let d ← deserializeBlob k b
        some { s with data := d }
  else Option.none

/-- `RedisSessionAdapter.save`: a pipeline of `SET key serialize(data)` and
`EXPIRE key duration`, executed together; both effects are applied
atomically on execute (none when the store is unavailable, in which case
execute raises).  As in the file adapter, `serialize` rewrites the
session's own data dict in place. -/
def RedisSessionAdapter.save (s : SessionAdapter) (st : RedisStore) :
    Option (SessionAdapter × RedisStore) := do
  let key ← SessionAdapter.sessionKey s
  let k ← SessionAdapter.serializerKind s
  let d ← SessionAdapter.durationAttr s
  if st.available then
    some ({ s with data := serializeDatetime s.data },
          { st with entries := assocSet st.entries key (serializeBlob k s.data, d) })
  else Option.none

/-- `RedisSessionAdapter.delete` contains a bare `yield`, making it a
generator function: calling `adapter.delete()` creates a generator object
and executes none of the body (and the call sites never iterate it), so
the call leaves both the adapter and the store untouched. -/
def RedisSessionAdapter.deleteCall (s : SessionAdapter) (st : RedisStore) :
    SessionAdapter × RedisStore :=
  (s, st)

/-- The body of `RedisSessionAdapter.delete` as it would run if the
generator were exhausted: `self._redis.delete(key)` removes the stored key,
then `self.clear()` raises (see `SessionAdapter.clear`), leaving the
in-memory data intact. -/
def RedisSessionAdapter.deleteBody (s : SessionAdapter) (st : RedisStore) :
    Option SessionAdapter × RedisStore :=
  match SessionAdapter.sessionKey s with
  | Option.none => (Option.none, st)
  | some key =>
      (SessionAdapter.clear s, { st with entries := assocDelete st.entries key })

/-- `tinman.session.get_session_serializer`: `'json'` and `'msgpack'`
select those serializers; any other configuration value — including an
absent entry — silently selects Pickle. -/
def get_session_serializer (configuration : List (String × Value)) :
    SerializerKind :=
  match assocGet configuration "serializer" with
  | some (Value.str s) =>
      if s = "json" then SerializerKind.json
      else if s = "msgpack" then SerializerKind.msgpack
      else SerializerKind.pickle
  | _ => SerializerKind.pickle

/-! Concrete sample states used by the closed theorems below. -/

/-- An opaque application object. -/
def appObject : Value := Value.obj "application"

/-- An empty storage directory. -/
def emptyFs : FileSystem := FileSystem.mk [] []

/-- A file adapter constructed for session id `X` over `/tmp/s`. -/
def adapterX : SessionAdapter :=
  (FileSessionAdapter.init appObject (some "X") Option.none 60 Option.none
      "unused-fresh-id" "/tmp/s" emptyFs 1000).1

/-- `adapterX` after the application ran `session.locale = 'en_US'`. -/
def adapterXlocale : SessionAdapter :=
  (SessionAdapter.setattr adapterX "locale" (Value.str "en_US")).getD adapterX

/-- A storage directory holding the backing file for session `X`. -/
def fsX : FileSystem :=
  FileSystem.mk
    [("/tmp/s/X", FileRecord.mk (Blob.ok [("locale", Value.str "en_US")]) 900 900)]
    []

/-- A redis adapter constructed for session id `X`. -/
def redisAdapterX : SessionAdapter :=
  RedisSessionAdapter.init appObject (some "X") Option.none 60 Option.none
    "unused-fresh-id"

/-- `redisAdapterX` after the application ran `session.locale = 'en_US'`. -/
def redisAdapterXlocale : SessionAdapter :=
  (SessionAdapter.setattr redisAdapterX "locale" (Value.str "en_US")).getD
    redisAdapterX

/-- A key-value store holding the stored copy of session `X`. -/
def storeX : RedisStore :=
  RedisStore.mk true [("sess:X", (Blob.ok [("locale", Value.str "en_US")], 60))]

/-- C1: the claimed serialize/deserialize round trip for one-entry mappings
fails on timestamp values: serialize writes the tagged structure with the
epoch as a decimal string (`strftime('%s')`), and deserialize then calls
`datetime.fromtimestamp` on that string, which raises TypeError — for every
serializer implementation.  Evaluated at the failing input
`\x7b'k': datetime.fromtimestamp(1300000000)\x7d`. -/
theorem C1_datetime_roundtrip_raises :
    serializeBlob SerializerKind.pickle [("k", Value.datetime 1300000000)]
      = Blob.ok [("k", Value.dict [("type", Value.str "datetime"),
                                   ("value", Value.str "1300000000")])]
  ∧ deserializeBlob SerializerKind.pickle
      (serializeBlob SerializerKind.pickle [("k", Value.datetime 1300000000)])
      = Option.none
  ∧ deserializeBlob SerializerKind.json
      (serializeBlob SerializerKind.json [("k", Value.datetime 1300000000)])
      = Option.none
  ∧ deserializeBlob SerializerKind.msgpack
      (serializeBlob SerializerKind.msgpack [("k", Value.datetime 1300000000)])
      = Option.none :=
  ⟨rfl, rfl, rfl, rfl⟩

/-- C2: `delete()` does not clear the session or remove the stored copy.
The file adapter's `delete` calls `clear()` first, which raises
AttributeError (its `self._data = dict()` is rejected by `__setattr__`), so
delete raises before unlinking; the redis adapter's `delete` is a generator
function whose body never runs when called, and even if it were exhausted
its `clear()` would raise.  Evaluated at a session `X` holding
`locale = 'en_US'` with its backing file / key present. -/
theorem C2_delete_raises_and_is_noop :
    SessionAdapter.contains adapterXlocale "locale" = true
  ∧ FileSessionAdapter.delete adapterXlocale fsX = Option.none
  ∧ RedisSessionAdapter.deleteCall redisAdapterXlocale storeX
      = (redisAdapterXlocale, storeX)
  ∧ (RedisSessionAdapter.deleteBody redisAdapterXlocale storeX).1 = Option.none :=
  ⟨rfl, rfl, rfl, rfl⟩

/-- C3: `clear()` never succeeds — its body `self._data = dict()` is
intercepted by `__setattr__`, which raises AttributeError for the key
`_data`, on every adapter state. -/
theorem C3_clear_always_raises (s : SessionAdapter) :
    SessionAdapter.clear s = Option.none := rfl

/-- C5 counterexample: with `duration = 300`, a file whose age is exactly
300 seconds (stat times 700, now 1000) is retained by the stale sweep, not
removed — the sweep removes only files strictly older than `duration`. -/
theorem C5_exact_age_file_retained :
    assocGet
      (FileSessionAdapter.cleanup
        (FileSystem.mk [("X", FileRecord.mk Blob.empty 700 700)] []) 300 1000).files
      "X"
      = some (FileRecord.mk Blob.empty 700 700) := rfl

/-! Helper lemmas about the association-list dict model. -/

theorem assocGet_assocSet_ne {α : Type} (l : List (String × α)) (k k' : String)
    (v : α) (h : k ≠ k') : assocGet (assocSet l k v) k' = assocGet l k' := by
  induction l with
  | nil => simp [assocSet, assocGet, h]
  | cons hd tl ih =>
    obtain ⟨k0, v0⟩ := hd
    by_cases hk : k0 = k
    · subst hk
      simp only [assocSet, if_pos rfl, assocGet, if_neg h]
    · simp only [assocSet, if_neg hk, assocGet]
      by_cases hk' : k0 = k'
      · simp [hk']
      · simp [hk', ih]

theorem assocGet_assocDelete_ne {α : Type} (l : List (String × α)) (k k' : String)
    (h : k ≠ k') : assocGet (assocDelete l k) k' = assocGet l k' := by
  induction l with
  | nil => simp [assocDelete, assocGet]
  | cons hd tl ih =>
    obtain ⟨k0, v0⟩ := hd
    by_cases hk : k0 = k
    · subst hk
      simp [assocDelete, assocGet, if_neg h]
    · simp only [assocDelete, if_neg hk, assocGet]
      by_cases hk' : k0 = k'
      · simp [hk']
      · simp [hk', ih]

/-! Attribute-store preservation of the adapter operations. -/

theorem setattr_attributes_get (s s' : SessionAdapter) (k : String) (v : Value)
    (a : String) (ha : k ≠ a)
    (h : SessionAdapter.setattr s k v = some s') :
    assocGet s'.attributes a = assocGet s.attributes a := by
  by_cases h1 : k = "_data"
  · simp [SessionAdapter.setattr, h1] at h
  · by_cases h2 : k = ""
    · simp [SessionAdapter.setattr, h1, h2] at h
    · by_cases h3 : k.front = '_'
      · simp only [SessionAdapter.setattr, if_neg h1, if_neg h2, if_pos h3,
          Option.some.injEq] at h
        subst h
        exact assocGet_assocSet_ne s.attributes k a v ha
      · simp only [SessionAdapter.setattr, if_neg h1, if_neg h2, if_neg h3,
          Option.some.injEq] at h
        subst h
        rfl

theorem delattr_attributes_get (s s' : SessionAdapter) (k : String)
    (a : String) (ha : k ≠ a)
    (h : SessionAdapter.delattr s k = some s') :
    assocGet s'.attributes a = assocGet s.attributes a := by
  by_cases h1 : k = "_data"
  · simp only [SessionAdapter.delattr, if_pos h1, Option.some.injEq] at h
    subst h
    rfl
  · by_cases h2 : k = ""
    · simp [SessionAdapter.delattr, h1, h2] at h
    · by_cases h3 : k.front = '_'
      · by_cases h4 : (assocGet s.attributes k).isSome
        · simp only [SessionAdapter.delattr, if_neg h1, if_neg h2, if_pos h3,
            if_pos h4, Option.some.injEq] at h
          subst h
          exact assocGet_assocDelete_ne s.attributes k a ha
        · simp only [SessionAdapter.delattr, if_neg h1, if_neg h2, if_pos h3,
            if_neg h4, Option.some.injEq] at h
          subst h
          rfl
      · by_cases h4 : (assocGet s.data k).isSome
        · simp only [SessionAdapter.delattr, if_neg h1, if_neg h2, if_neg h3,
            if_pos h4, Option.some.injEq] at h
          subst h
          rfl
        · simp [SessionAdapter.delattr, h1, h2, h3, h4] at h

theorem file_load_attributes (s s' : SessionAdapter) (fs : FileSystem)
    (h : FileSessionAdapter.load s fs = some s') :
    s'.attributes = s.attributes := by
  cases hfn : FileSessionAdapter.filename s with
  | none => simp [FileSessionAdapter.load, hfn] at h
  | some fn =>
    simp only [FileSessionAdapter.load, hfn, Option.bind_eq_bind,
      Option.some_bind] at h
    cases hr : FileSystem.read fs fn <;> rw [hr] at h
    · simp only [Option.some.injEq] at h
      subst h
      rfl
    · simp only [Option.some.injEq] at h
      subst h
      rfl
    · cases hk : SessionAdapter.serializerKind s with
      | none => simp [hk] at h
      | some k =>
        simp only [hk, Option.some_bind] at h
        cases hd : deserializeBlob k _ <;> rw [hd] at h
        · simp at h
        · simp only [Option.some_bind, Option.some.injEq] at h
          subst h
          rfl

theorem redis_load_attributes (s s' : SessionAdapter) (st : RedisStore)
    (h : RedisSessionAdapter.load s st = some s') :
    s'.attributes = s.attributes := by
  cases hkey : SessionAdapter.sessionKey s with
  | none => simp [RedisSessionAdapter.load, hkey] at h
  | some key =>
    simp only [RedisSessionAdapter.load, hkey, Option.bind_eq_bind,
      Option.some_bind] at h
    by_cases hav : st.available
    · rw [if_pos hav] at h
      cases hg : assocGet st.entries key with
      | none =>
        rw [hg] at h
        simp only [Option.some.injEq] at h
        subst h
        rfl
      | some bv =>
        obtain ⟨b, ttl⟩ := bv
        rw [hg] at h
        cases b with
        | empty =>
          simp only [Option.some.injEq] at h
          subst h
          rfl
        | ok d =>
          cases hk : SessionAdapter.serializerKind s with
          | none => simp [hk] at h
          | some k =>
            simp only [hk, Option.some_bind] at h
            cases hd : deserializeBlob k (Blob.ok d) <;> rw [hd] at h
            · simp at h
            · simp only [Option.some_bind, Option.some.injEq] at h
              subst h
              rfl
        | corrupt =>
          cases hk : SessionAdapter.serializerKind s with
          | none => simp [hk] at h
          | some k =>
            simp only [hk, Option.some_bind] at h
            cases hd : deserializeBlob k Blob.corrupt <;> rw [hd] at h
            · simp at h
            · simp only [Option.some_bind, Option.some.injEq] at h
              subst h
              rfl
    · rw [if_neg hav] at h
      simp at h

theorem file_save_attributes (s s' : SessionAdapter) (fs fs' : FileSystem)
    (now : Int)
    (h : FileSessionAdapter.save s fs now = some (s', fs')) :
    s'.attributes = s.attributes := by
  cases hfn : FileSessionAdapter.filename s with
  | none => simp [FileSessionAdapter.save, hfn] at h
  | some fn =>
    cases hk : SessionAdapter.serializerKind s with
    | none => simp [FileSessionAdapter.save, hfn, hk] at h
    | some k =>
      simp only [FileSessionAdapter.save, hfn, hk, Option.bind_eq_bind,
        Option.some_bind, Option.some.injEq, Prod.mk.injEq] at h
      obtain ⟨h1, _⟩ := h
      subst h1
      rfl

theorem redis_save_attributes (s s' : SessionAdapter) (st st' : RedisStore)
    (h : RedisSessionAdapter.save s st = some (s', st')) :
    s'.attributes = s.attributes := by
  cases hkey : SessionAdapter.sessionKey s with
  | none => simp [RedisSessionAdapter.save, hkey] at h
  | some key =>
    cases hk : SessionAdapter.serializerKind s with
    | none => simp [RedisSessionAdapter.save, hkey, hk] at h
    | some k =>
      cases hd : SessionAdapter.durationAttr s with
      | none => simp [RedisSessionAdapter.save, hkey, hk, hd] at h
      | some d =>
        simp only [RedisSessionAdapter.save, hkey, hk, hd, Option.bind_eq_bind,
          Option.some_bind] at h
        by_cases hav : st.available
        · rw [if_pos hav] at h
          simp only [Option.some.injEq, Prod.mk.injEq] at h
          obtain ⟨h1, _⟩ := h
          subst h1
          rfl
        · rw [if_neg hav] at h
          simp at h

/-- An adapter constructed with the explicit session id `a`. -/
def adapterA : SessionAdapter :=
  SessionAdapter.init appObject (some "a") Option.none 300 Option.none "fresh-a"

/-- `adapterA` after the data-attribute assignment `session.nickname = 'n'`. -/
def adapterA2 : SessionAdapter :=
  (SessionAdapter.setattr adapterA "nickname" (Value.str "n")).getD adapterA

/-- C4 counterexample: the session id is not immutable — assigning the
internal attribute `_id` (an attribute-set operation, routed by
`__setattr__` into the attributes store) changes `.id` from `a` to `b`;
moreover an explicit but empty session id is replaced by a minted one. -/
theorem C4_id_mutable_counterexample :
    SessionAdapter.idStr adapterA = some "a"
  ∧ (SessionAdapter.setattr adapterA "_id" (Value.str "b")).map
      SessionAdapter.idStr = some (some "b")
  ∧ SessionAdapter.idStr
      (SessionAdapter.init appObject (some "") Option.none 300 Option.none
        "minted") = some "minted" :=
  ⟨rfl, rfl, rfl⟩

/-- C4 amended: an adapter constructed with an explicit non-empty id has
`.id` equal to it, and one constructed without an id (or with an empty
string) carries the freshly minted id; `.id` is unchanged by every
attribute set or delete whose key is not `_id` itself, and by `load` and
`save` on both backends; `clear()` and the file adapter's `delete()`
always raise without touching the adapter.  Setting the `_id` attribute,
however, does change `.id` (see the counterexample). -/
theorem C4_id_stable
    (app : Value) (cfg : Option (List (String × Value))) (dur : Int)
    (ser : Option SerializerKind) (fresh i : String) (s s' : SessionAdapter)
    (k : String) (v : Value) (fs : FileSystem) (st : RedisStore) (now : Int) :
    (i ≠ "" →
      SessionAdapter.idStr (SessionAdapter.init app (some i) cfg dur ser fresh)
        = some i)
  ∧ SessionAdapter.idStr (SessionAdapter.init app Option.none cfg dur ser fresh)
      = some fresh
  ∧ (k ≠ "_id" → SessionAdapter.setattr s k v = some s' →
      SessionAdapter.idStr s' = SessionAdapter.idStr s)
  ∧ (k ≠ "_id" → SessionAdapter.delattr s k = some s' →
      SessionAdapter.idStr s' = SessionAdapter.idStr s)
  ∧ (FileSessionAdapter.load s fs = some s' →
      SessionAdapter.idStr s' = SessionAdapter.idStr s)
  ∧ (RedisSessionAdapter.load s st = some s' →
      SessionAdapter.idStr s' = SessionAdapter.idStr s)
  ∧ (∀ fs', FileSessionAdapter.save s fs now = some (s', fs') →
      SessionAdapter.idStr s' = SessionAdapter.idStr s)
  ∧ (∀ st', RedisSessionAdapter.save s st = some (s', st') →
      SessionAdapter.idStr s' = SessionAdapter.idStr s)
  ∧ SessionAdapter.clear s = Option.none
  ∧ FileSessionAdapter.delete s fs = Option.none := by
  refine ⟨?_, ?_, ?_, ?_, ?_, ?_, ?_, ?_, rfl, rfl⟩
  · intro hi
    simp [SessionAdapter.init, SessionAdapter.idStr, assocGet, hi]
  · rfl
  · intro hk h
    unfold SessionAdapter.idStr
    rw [setattr_attributes_get s s' k v "_id" hk h]
  · intro hk h
    unfold SessionAdapter.idStr
    rw [delattr_attributes_get s s' k "_id" hk h]
  · intro h
    unfold SessionAdapter.idStr
    rw [file_load_attributes s s' fs h]
  · intro h
    unfold SessionAdapter.idStr
    rw [redis_load_attributes s s' st h]
  · intro fs' h
    unfold SessionAdapter.idStr
    rw [file_save_attributes s s' fs fs' now h]
  · intro st' h
    unfold SessionAdapter.idStr
    rw [redis_save_attributes s s' st st' h]

/-- C4 witness: the amended theorem applied at the concrete id `a` and the
concrete data-attribute assignment `session.nickname = 'n'`. -/
theorem C4_id_stable_witness :
    SessionAdapter.idStr adapterA = some "a"
  ∧ SessionAdapter.idStr adapterA2 = SessionAdapter.idStr adapterA := by
  have h := C4_id_stable appObject Option.none 300 Option.none "fresh-a" "a"
    adapterA adapterA2 "nickname" (Value.str "n") emptyFs storeX 0
  exact ⟨h.1 (by decide), h.2.2.1 (by decide) rfl⟩

/-- A storage directory holding one file with stat times 700. -/
def staleFs : FileSystem :=
  FileSystem.mk [("X", FileRecord.mk Blob.empty 700 700)] []

/-- C5 amended: the stale sweep removes a file only when
`max(st_ctime, st_mtime) + duration` is strictly in the past — a file whose
age is exactly `duration` seconds is retained, and one a second older is
removed. -/
theorem C5_sweep_boundary (fs : FileSystem) (name : String) (r : FileRecord)
    (duration now : Int) (h : (name, r) ∈ fs.files) :
    (now = max r.ctime r.mtime + duration →
      (name, r) ∈ (FileSessionAdapter.cleanup fs duration now).files)
  ∧ (max r.ctime r.mtime + duration < now →
      (name, r) ∉ (FileSessionAdapter.cleanup fs duration now).files) := by
  constructor
  · intro hnow
    subst hnow
    unfold FileSessionAdapter.cleanup
    refine List.mem_filter.mpr ⟨h, ?_⟩
    simp
  · intro hlt hmem
    have hp := (List.mem_filter.mp hmem).2
    simp only [if_pos hlt] at hp
    exact Bool.false_ne_true hp

/-- C5 witness: the amended boundary at the concrete sweep — duration 300,
stat times 700: the file is retained at `now = 1000` (age exactly 300) and
removed at `now = 1001`. -/
theorem C5_sweep_boundary_witness :
    ("X", FileRecord.mk Blob.empty 700 700)
      ∈ (FileSessionAdapter.cleanup staleFs 300 1000).files
  ∧ ("X", FileRecord.mk Blob.empty 700 700)
      ∉ (FileSessionAdapter.cleanup staleFs 300 1001).files := by
  have h1 := C5_sweep_boundary staleFs "X" (FileRecord.mk Blob.empty 700 700)
    300 1000 (List.Mem.head _)
  have h2 := C5_sweep_boundary staleFs "X" (FileRecord.mk Blob.empty 700 700)
    300 1001 (List.Mem.head _)
  exact ⟨h1.1 (by decide), h2.2 (by decide)⟩

/-- A reachable, available key-value store with no stored sessions. -/
def emptyStore : RedisStore := RedisStore.mk true []

/-- C6: loading an id with no backing file (file adapter) or no stored key
(kv adapter) raises nothing and yields an adapter with empty data, whose
subsequent reads of any data-attribute name (not a class attribute, not
`_`-prefixed) return the default `None`. -/
theorem C6_load_miss_empty (s : SessionAdapter) (fs : FileSystem)
    (st : RedisStore) (fn key dk : String)
    (hfn : FileSessionAdapter.filename s = some fn)
    (hread : FileSystem.read fs fn = ReadResult.missing)
    (hkey : SessionAdapter.sessionKey s = some key)
    (hav : st.available = true)
    (hmiss : assocGet st.entries key = Option.none)
    (hdk : dk ≠ "") (hdk2 : dk.front ≠ '_')
    (_hdk3 : dk ∉ SessionAdapter.classAttrs) :
    FileSessionAdapter.load s fs = some { s with data := [] }
  ∧ RedisSessionAdapter.load s st = some { s with data := [] }
  ∧ SessionAdapter.getattr { s with data := [] } dk = some Value.none := by
  have hdkd : dk ≠ "_data" := by
    intro hh
    apply hdk2
    rw [hh]
    rfl
  refine ⟨?_, ?_, ?_⟩
  · simp [FileSessionAdapter.load, hfn, hread]
  · simp [RedisSessionAdapter.load, hkey, hav, hmiss]
  · simp [SessionAdapter.getattr, hdkd, hdk, hdk2, assocGet]

/-- C6 witness: the concrete session id `X` over an empty directory and an
empty store, reading the data attribute `locale` afterwards. -/
theorem C6_load_miss_empty_witness :
    FileSessionAdapter.load adapterX emptyFs = some { adapterX with data := [] }
  ∧ RedisSessionAdapter.load adapterX emptyStore
      = some { adapterX with data := [] }
  ∧ SessionAdapter.getattr { adapterX with data := [] } "locale"
      = some Value.none := by
  exact C6_load_miss_empty adapterX emptyFs emptyStore "/tmp/s/X" "sess:X"
    "locale" rfl rfl rfl rfl rfl (by decide) (by decide) (by decide)

/-- A storage directory whose copy of session `X` holds corrupt bytes. -/
def fsCorruptX : FileSystem :=
  FileSystem.mk [("/tmp/s/X", FileRecord.mk Blob.corrupt 900 900)] []

/-- An unreachable key-value store: every command raises. -/
def downStore : RedisStore := RedisStore.mk false []

/-- C7 counterexample: load does not always degrade to an empty session —
the file adapter catches only IOError, so corrupt stored bytes make
deserialization raise out of `load()`; and the kv adapter's
`_load_session_data` has no exception handling at all, so a backend outage
raises out of `load()`. -/
theorem C7_load_failure_propagates :
    FileSessionAdapter.load adapterX fsCorruptX = Option.none
  ∧ RedisSessionAdapter.load redisAdapterX downStore = Option.none :=
  ⟨rfl, rfl⟩

/-- C7 amended: the file adapter returns an empty session when the file is
missing or reading it raises an I/O error, but corrupt stored bytes make
`load()` raise; the kv adapter returns an empty session only when the key
is absent, and raises both on a backend outage and on corrupt stored
bytes. -/
theorem C7_load_failure_semantics (s : SessionAdapter) (fs : FileSystem)
    (st : RedisStore) (fn key : String) (k : SerializerKind) (ttl : Int)
    (hfn : FileSessionAdapter.filename s = some fn)
    (hkey : SessionAdapter.sessionKey s = some key)
    (hk : SessionAdapter.serializerKind s = some k) :
    (FileSystem.read fs fn = ReadResult.ioError →
      FileSessionAdapter.load s fs = some { s with data := [] })
  ∧ (FileSystem.read fs fn = ReadResult.missing →
      FileSessionAdapter.load s fs = some { s with data := [] })
  ∧ (FileSystem.read fs fn = ReadResult.found Blob.corrupt →
      FileSessionAdapter.load s fs = Option.none)
  ∧ (st.available = false → RedisSessionAdapter.load s st = Option.none)
  ∧ (st.available = true → assocGet st.entries key = Option.none →
      RedisSessionAdapter.load s st = some { s with data := [] })
  ∧ (st.available = true → assocGet st.entries key = some (Blob.corrupt, ttl) →
      RedisSessionAdapter.load s st = Option.none) := by
  refine ⟨?_, ?_, ?_, ?_, ?_, ?_⟩
  · intro hread
    simp [FileSessionAdapter.load, hfn, hread]
  · intro hread
    simp [FileSessionAdapter.load, hfn, hread]
  · intro hread
    have hcor : deserializeBlob k Blob.corrupt = Option.none := by
      cases k <;> rfl
    simp [FileSessionAdapter.load, hfn, hread, hk, hcor]
  · intro hav
    simp [RedisSessionAdapter.load, hkey, hav]
  · intro hav hmiss
    simp [RedisSessionAdapter.load, hkey, hav, hmiss]
  · intro hav hcorrupt
    have hcor : deserializeBlob k Blob.corrupt = Option.none := by
      cases k <;> rfl
    simp [RedisSessionAdapter.load, hkey, hav, hcorrupt, hk, hcor]

/-- A key-value store whose copy of session `X` holds corrupt bytes. -/
def corruptStore : RedisStore :=
  RedisStore.mk true [("sess:X", (Blob.corrupt, 60))]

/-- C7 witness: the amended semantics at concrete inputs — an I/O read
failure on session `X`'s file degrades to an empty session, while corrupt
stored bytes in the kv store make `load()` raise. -/
theorem C7_load_failure_semantics_witness :
    FileSessionAdapter.load adapterX (FileSystem.mk [] ["/tmp/s/X"])
      = some { adapterX with data := [] }
  ∧ RedisSessionAdapter.load adapterX corruptStore = Option.none := by
  have h1 := C7_load_failure_semantics adapterX (FileSystem.mk [] ["/tmp/s/X"])
    emptyStore "/tmp/s/X" "sess:X" SerializerKind.pickle 60 rfl rfl rfl
  have h2 := C7_load_failure_semantics adapterX emptyFs corruptStore
    "/tmp/s/X" "sess:X" SerializerKind.pickle 60 rfl rfl rfl
  exact ⟨h1.1 rfl, h2.2.2.2.2.2 rfl rfl⟩

theorem assocGet_assocSet_same {α : Type} (l : List (String × α)) (k : String)
    (v : α) : assocGet (assocSet l k v) k = some v := by
  induction l with
  | nil => simp [assocSet, assocGet]
  | cons hd tl ih =>
    obtain ⟨k0, v0⟩ := hd
    by_cases hk : k0 = k
    · subst hk
      simp [assocSet, assocGet]
    · simp [assocSet, assocGet, hk, ih]

/-- C8: a successful kv-backend `save()` stores the serialized session data
under the session key and sets its TTL to exactly the `_duration` value, in
the one pipelined operation. -/
theorem C8_save_sets_value_and_ttl (s s' : SessionAdapter)
    (st st' : RedisStore) (key : String) (d : Int) (k : SerializerKind)
    (hkey : SessionAdapter.sessionKey s = some key)
    (hk : SessionAdapter.serializerKind s = some k)
    (hd : SessionAdapter.durationAttr s = some d)
    (hsave : RedisSessionAdapter.save s st = some (s', st')) :
    assocGet st'.entries key = some (serializeBlob k s.data, d) := by
  by_cases hav : st.available
  · simp only [RedisSessionAdapter.save, hkey, hk, hd, Option.bind_eq_bind,
      Option.some_bind, if_pos hav, Option.some.injEq, Prod.mk.injEq] at hsave
    obtain ⟨_, h2⟩ := hsave
    subst h2
    exact assocGet_assocSet_same st.entries key (serializeBlob k s.data, d)
  · simp [RedisSessionAdapter.save, hkey, hk, hd, hav] at hsave

/-- The pair produced by saving session `X` (holding `locale = 'en_US'`)
into an empty store. -/
def savedPairX : SessionAdapter × RedisStore :=
  (RedisSessionAdapter.save redisAdapterXlocale emptyStore).getD
    (redisAdapterXlocale, emptyStore)

/-- C8 witness: the TTL-refresh property at the concrete session `X` with
duration 60 saved into an empty store. -/
theorem C8_save_sets_value_and_ttl_witness :
    assocGet savedPairX.2.entries "sess:X"
      = some (serializeBlob SerializerKind.pickle redisAdapterXlocale.data, 60) :=
  C8_save_sets_value_and_ttl redisAdapterXlocale savedPairX.1 emptyStore
    savedPairX.2 "sess:X" 60 SerializerKind.pickle rfl rfl rfl rfl

/-- `adapterX` after the application stored a timestamp:
`session.logged_in_at = datetime.fromtimestamp(100)`. -/
def adapterT : SessionAdapter :=
  (SessionAdapter.setattr adapterX "logged_in_at" (Value.datetime 100)).getD
    adapterX

/-- C9 counterexample: `save()` is not a pure checkpoint for
timestamp-typed values — `_serialize_datetime` rewrites the session's own
data dict in place, so after `save()` the in-memory value under
`logged_in_at` is the tagged structure, not the timestamp stored before the
call. -/
theorem C9_save_mutates_datetimes :
    (FileSessionAdapter.save adapterT emptyFs 500).map (fun p => p.1.data)
      = some [("logged_in_at", datetimeTagged 100)]
  ∧ [("logged_in_at", datetimeTagged 100)]
      ≠ [("logged_in_at", Value.datetime 100)] := by
  refine ⟨rfl, ?_⟩
  intro h
  injection h with h1 _
  injection h1 with _ h2
  exact Value.noConfusion h2

theorem serializeDatetime_eq_self (d : List (String × Value))
    (h : ∀ kv ∈ d, ∀ e, kv.2 ≠ Value.datetime e) : serializeDatetime d = d := by
  induction d with
  | nil => rfl
  | cons hd tl ih =>
    unfold serializeDatetime
    simp only [List.map_cons]
    rw [show (tl.map fun kv =>
        match kv.2 with
        | Value.datetime e => (kv.1, datetimeTagged e)
        | _ => kv) = serializeDatetime tl from rfl]
    rw [ih fun kv hkv => h kv (List.mem_cons_of_mem hd hkv)]
    have hhd := h hd (List.mem_cons_self hd tl)
    cases hv : hd.2 with
    | datetime e => exact absurd hv (hhd e)
    | none => rfl
    | str a => rfl
    | num n => rfl
    | bool b => rfl
    | dict es => rfl
    | serializer sk => rfl
    | obj t => rfl

theorem filename_congr (s s' : SessionAdapter)
    (h : s'.attributes = s.attributes) :
    FileSessionAdapter.filename s' = FileSessionAdapter.filename s := by
  unfold FileSessionAdapter.filename SessionAdapter.idStr
  rw [h]

/-- C9 amended: after a successful file-backend `save()`, the in-memory
data equals the pre-call data with every top-level timestamp value replaced
in place by its tagged structure (`_serialize_datetime` mutates the dict it
serializes); data holding no timestamp values is unchanged; the attributes
store is untouched; and a further `save()` still succeeds — Saved is a
checkpoint, not a terminal state. -/
theorem C9_save_checkpoint (s s' : SessionAdapter) (fs fs' : FileSystem)
    (now : Int)
    (h : FileSessionAdapter.save s fs now = some (s', fs')) :
    s'.data = serializeDatetime s.data
  ∧ ((∀ kv ∈ s.data, ∀ e, kv.2 ≠ Value.datetime e) → s'.data = s.data)
  ∧ s'.attributes = s.attributes
  ∧ (∃ s'' fs'', FileSessionAdapter.save s' fs' now = some (s'', fs'')) := by
  cases hfn : FileSessionAdapter.filename s with
  | none => simp [FileSessionAdapter.save, hfn] at h
  | some fn =>
    cases hk : SessionAdapter.serializerKind s with
    | none => simp [FileSessionAdapter.save, hfn, hk] at h
    | some k =>
      simp only [FileSessionAdapter.save, hfn, hk, Option.bind_eq_bind,
        Option.some_bind, Option.some.injEq, Prod.mk.injEq] at h
      obtain ⟨h1, _⟩ := h
      have hdata : s'.data = serializeDatetime s.data := by rw [← h1]
      have hattr : s'.attributes = s.attributes := by rw [← h1]
      refine ⟨hdata, ?_, hattr, ?_⟩
      · intro hnd
        rw [hdata, serializeDatetime_eq_self s.data hnd]
      · have hfn' : FileSessionAdapter.filename s' = some fn := by
          rw [filename_congr s s' hattr]
          exact hfn
        have hk' : SessionAdapter.serializerKind s' = some k := by
          unfold SessionAdapter.serializerKind
          rw [hattr]
          exact hk
        exact ⟨{ s' with data := serializeDatetime s'.data },
               FileSystem.write fs' fn (serializeBlob k s'.data) now,
               by simp [FileSessionAdapter.save, hfn', hk']⟩

/-- The pair produced by saving session `X` (holding only the string value
`locale = 'en_US'`) into an empty directory. -/
def savedPairXL : SessionAdapter × FileSystem :=
  (FileSessionAdapter.save adapterXlocale emptyFs 500).getD
    (adapterXlocale, emptyFs)

/-- C9 witness: the amended checkpoint property at the concrete session `X`
whose data holds no timestamps — the in-memory data is unchanged by
`save()`. -/
theorem C9_save_checkpoint_witness :
    savedPairXL.1.data = adapterXlocale.data := by
  have h := C9_save_checkpoint adapterXlocale savedPairXL.1 emptyFs
    savedPairXL.2 500 rfl
  refine h.2.1 ?_
  intro kv hkv e
  have hkv' : kv ∈ [("locale", Value.str "en_US")] := hkv
  rcases List.mem_singleton.mp hkv' with rfl
  exact fun hh => Value.noConfusion hh

/-- C10: `get_session_serializer` returns the Pickle serializer whenever
the `serializer` configuration entry is absent or holds any value other
than the strings `json` and `msgpack`; an unrecognized name is silently
accepted rather than rejected. -/
theorem C10_default_serializer (configuration : List (String × Value)) :
    (assocGet configuration "serializer" = Option.none →
      get_session_serializer configuration = SerializerKind.pickle)
  ∧ (∀ v, assocGet configuration "serializer" = some v →
      v ≠ Value.str "json" → v ≠ Value.str "msgpack" →
      get_session_serializer configuration = SerializerKind.pickle) := by
  constructor
  · intro h
    unfold get_session_serializer
    rw [h]
  · intro v h hj hm
    unfold get_session_serializer
    rw [h]
    cases v with
    | str a =>
      have ha1 : a ≠ "json" := fun hh => hj (by rw [hh])
      have ha2 : a ≠ "msgpack" := fun hh => hm (by rw [hh])
      simp [ha1, ha2]
    | none => rfl
    | num n => rfl
    | bool b => rfl
    | datetime e => rfl
    | dict es => rfl
    | serializer k => rfl
    | obj t => rfl

/-- C10 witness: the fallback at concrete configurations — an empty mapping
and one with the unrecognized serializer name `bogus`. -/
theorem C10_default_serializer_witness :
    get_session_serializer [] = SerializerKind.pickle
  ∧ get_session_serializer [("serializer", Value.str "bogus")]
      = SerializerKind.pickle := by
  have h1 := C10_default_serializer []
  have h2 := C10_default_serializer [("serializer", Value.str "bogus")]
  refine ⟨h1.1 rfl, h2.2 (Value.str "bogus") rfl ?_ ?_⟩
  · intro hh
    injection hh with h'
    exact absurd h' (by decide)
  · intro hh
    injection hh with h'
    exact absurd h' (by decide)

end Tinman
